import Mathlib

/-!
Shallow embedding of the SDUI rendering engine of `everything-app`.

Sources embedded:
  * `src/shared/sdui.types.ts` — the data model (`LayoutConfig`,
    `LayoutSection`, `SectionContent`, `ContentItem`, actions, visibility).
    TypeScript type annotations are erased at runtime, so the `type` tag of a
    section and the string-valued enumerations are modelled as `String`;
    optional fields are `Option`; opaque `Record<string, unknown>` bags are
    modelled as association lists `List (String × String)`.
  * `src/client/src/components/SDUI/SectionRenderer.tsx` — the dispatcher
    `renderSectionByType` (a `switch` on the type tag, embedded as a chain of
    string comparisons in source order) and the wrapping component
    `SectionRenderer` (optional `h2` title, dispatched body, recursive
    children).
  * `src/client/src/components/SDUI/LayoutRenderer.tsx` — the composition
    root (`loading` takeover, `error` takeover, section list, floating
    action bar).
  * `src/client/src/components/SDUI/ActionBar.tsx` and the `CardGrid` /
    `ListSection` sub-renderer sources — per-item render loops.

JavaScript truthiness that the source relies on (`section.title && …`,
`section.columns || 3`, `section.spacing || "normal"`, `if (error)`,
`config.actions && config.actions.length > 0`) is embedded explicitly:
for a string option, `none` and `some ""` are falsy; for a numeric option,
`none` and `some 0` are falsy.
-/

/-- Opaque `Record<string, unknown>` bags, modelled as association lists. -/
abbrev Bag : Type := List (String × String)

/-- `DataSource` of `sdui.types.ts` (descriptor only; never interpreted by
the renderer). -/
structure DataSource where
  type : String
  endpoint : Option String
  method : Option String
  params : Option Bag
  transform : Option String
  cacheTtl : Option Int
  cacheKey : Option String
deriving DecidableEq, Repr

/-- `ContentAction` of `sdui.types.ts`. -/
structure ContentAction where
  id : String
  label : String
  type : String
  action : String
  payload : Option Bag
  condition : Option String
deriving DecidableEq, Repr

/-- `ContentItem` of `sdui.types.ts`. -/
structure ContentItem where
  id : String
  title : String
  subtitle : Option String
  description : Option String
  image : Option String
  icon : Option String
  badge : Option String
  metadata : Option Bag
  actions : Option (List ContentAction)
deriving DecidableEq, Repr

/-- `SectionContent` of `sdui.types.ts`. -/
structure SectionContent where
  items : Option (List ContentItem)
  template : Option String
  dataSource : Option DataSource
deriving DecidableEq, Repr

/-- `VisibilityRule` of `sdui.types.ts`. -/
structure VisibilityRule where
  condition : String
  customRule : Option String
deriving DecidableEq, Repr

/-- `LayoutAction` of `sdui.types.ts`. -/
structure LayoutAction where
  id : String
  label : String
  icon : Option String
  type : String
  action : String
  payload : Option Bag
  position : Option String
deriving DecidableEq, Repr

/-- `LayoutSection` of `sdui.types.ts`; a one-constructor inductive because
`children` makes it recursive. Field order follows the source interface. -/
inductive LayoutSection : Type where
  | mk : String → String → Option String → Option String →
      Option SectionContent → Option String → Option Int → Option String →
      Option VisibilityRule → Option (List LayoutSection) → LayoutSection

def LayoutSection.id : LayoutSection → String
  | .mk i _ _ _ _ _ _ _ _ _ => i

def LayoutSection.type : LayoutSection → String
  | .mk _ t _ _ _ _ _ _ _ _ => t

def LayoutSection.title : LayoutSection → Option String
  | .mk _ _ t _ _ _ _ _ _ _ => t

def LayoutSection.subtitle : LayoutSection → Option String
  | .mk _ _ _ s _ _ _ _ _ _ => s

def LayoutSection.content : LayoutSection → Option SectionContent
  | .mk _ _ _ _ c _ _ _ _ _ => c

def LayoutSection.layout : LayoutSection → Option String
  | .mk _ _ _ _ _ l _ _ _ _ => l

def LayoutSection.columns : LayoutSection → Option Int
  | .mk _ _ _ _ _ _ c _ _ _ => c

def LayoutSection.spacing : LayoutSection → Option String
  | .mk _ _ _ _ _ _ _ s _ _ => s

def LayoutSection.visibility : LayoutSection → Option VisibilityRule
  | .mk _ _ _ _ _ _ _ _ v _ => v

def LayoutSection.children : LayoutSection → Option (List LayoutSection)
  | .mk _ _ _ _ _ _ _ _ _ c => c

/-- `LayoutConfig` of `sdui.types.ts`. -/
structure LayoutConfig where
  mode : String
  title : String
  description : Option String
  sections : List LayoutSection
  actions : Option (List LayoutAction)
  metadata : Option Bag

/-- The thirteen members of the closed `SectionType` union in
`sdui.types.ts`, in declaration order. -/
def sectionTypeStrings : List String :=
  ["header", "hero", "cards", "list", "timeline", "calendar", "map",
   "form", "gallery", "stats", "alerts", "recommendations", "footer"]

/-- JavaScript `x || d` on an optional string (`none` and `some ""` are
falsy). Embeds `section.spacing || "normal"` in `SectionRenderer.tsx`. -/
def jsOrStr (v : Option String) (dflt : String) : String :=
  match v with
  | none => dflt
  | some t => if t = "" then dflt else t

/-- JavaScript `x || d` on an optional number (`none` and `some 0` are
falsy). Embeds `section.columns || 3` in `SectionRenderer.tsx`. -/
def jsOrInt (v : Option Int) (dflt : Int) : Int :=
  match v with
  | none => dflt
  | some c => if c = 0 then dflt else c

/-- JavaScript truthiness of an optional string (used by `if (error)` and
`section.title && …`). -/
def jsTruthy : Option String → Bool
  | none => false
  | some t => !(t == "")

/-- `section.content?.items || []` in `SectionRenderer.tsx`. -/
def contentItems (s : LayoutSection) : List ContentItem :=
  match s.content with
  | none => []
  | some c =>
    match c.items with
    | none => []
    | some l => l

/-- Request-scoped `data` side-channel (`data?: Record<string, unknown>`). -/
abbrev DataBag : Type := Option Bag

/-- One dispatched sub-renderer invocation: which concrete sub-renderer the
`switch` in `renderSectionByType` selected and the props it was given.
The `headerS`/`heroS` constructors record the `title` prop the source passes
to `HeaderSection`/`HeroSection`; `calendarS`/`mapS` record `title`/`data`;
`unknownS` is the `default:` placeholder branch carrying the literal
unrecognized type string. -/
inductive RNode : Type where
  | headerS : Option String → List ContentItem → RNode
  | heroS : Option String → List ContentItem → RNode
  | cardGrid : List ContentItem → Int → String → RNode
  | listS : List ContentItem → String → RNode
  | timelineS : List ContentItem → RNode
  | calendarS : Option String → DataBag → RNode
  | mapS : Option String → DataBag → RNode
  | alertsS : List ContentItem → RNode
  | recsS : List ContentItem → RNode
  | unknownS : String → RNode
deriving DecidableEq, Repr

/-- Is the node the `default:` placeholder branch? -/
def RNode.isPlaceholder : RNode → Bool
  | .unknownS _ => true
  | _ => false

/-- The text of the placeholder branch
(`Unknown section type: {type}` in `SectionRenderer.tsx`). -/
def RNode.placeholderText : RNode → Option String
  | .unknownS t => some ("Unknown section type: " ++ t)
  | _ => none

/-- The tag naming which dedicated sub-renderer a node is; placeholder
nodes get the tag `"unknown"`, which is not a member of
`sectionTypeStrings`. -/
def RNode.tag : RNode → String
  | .headerS _ _ => "header"
  | .heroS _ _ => "hero"
  | .cardGrid _ _ _ => "cards"
  | .listS _ _ => "list"
  | .timelineS _ => "timeline"
  | .calendarS _ _ => "calendar"
  | .mapS _ _ => "map"
  | .alertsS _ => "alerts"
  | .recsS _ => "recommendations"
  | .unknownS _ => "unknown"

/-- The item sequence handed to the selected sub-renderer (`[]` for the
sub-renderers that take no items). -/
def RNode.itemsOf : RNode → List ContentItem
  | .headerS _ l => l
  | .heroS _ l => l
  | .cardGrid l _ _ => l
  | .listS l _ => l
  | .timelineS l => l
  | .alertsS l => l
  | .recsS l => l
  | _ => []

/-- The `columns` prop of a `CardGrid` invocation. -/
def RNode.columnsOf : RNode → Option Int
  | .cardGrid _ c _ => some c
  | _ => none

/-- The `spacing` prop of a `CardGrid` or `ListSection` invocation. -/
def RNode.spacingOf : RNode → Option String
  | .cardGrid _ _ s => some s
  | .listS _ s => some s
  | _ => none

/-- The section title displayed by the sub-renderer itself.
Modelled from the spec for the sub-renderers whose sources are not in the
repository snapshot (`HeaderSection`, `HeroSection`, `CalendarSection`,
`MapSection`): "Title is rendered once, above the dispatched content, for
all types except `header` and `hero` (those two render their own title
internally to avoid duplication)" — so `headerS`/`heroS` display the title
prop they receive and every other sub-renderer displays none. -/
def RNode.displayedTitle : RNode → Option String
  | .headerS t _ => t
  | .heroS t _ => t
  | _ => none

/-- `renderSectionByType` of `SectionRenderer.tsx`: the `switch (type)`
embedded as a chain of string comparisons in source case order, closing
over the section `s` and the `data` bag exactly as the source closure
does. -/
def renderSectionByType (s : LayoutSection) (d : DataBag) (ty : String) :
    RNode :=
  if ty = "header" then .headerS s.title []
  else if ty = "hero" then .heroS s.title (contentItems s)
  else if ty = "cards" then
    .cardGrid (contentItems s) (jsOrInt s.columns 3)
      (jsOrStr s.spacing "normal")
  else if ty = "list" then .listS (contentItems s) (jsOrStr s.spacing "normal")
  else if ty = "timeline" then .timelineS (contentItems s)
  else if ty = "calendar" then .calendarS s.title d
  else if ty = "map" then .mapS s.title d
  else if ty = "alerts" then .alertsS (contentItems s)
  else if ty = "recommendations" then .recsS (contentItems s)
  else .unknownS ty

/-- The `h2` title block of `SectionRenderer.tsx`
(`section.title && section.type !== "header" && section.type !== "hero"`):
rendered only for a truthy (present, non-empty) title on a section whose
type is neither `header` nor `hero`. -/
def sectionHeading (ty : String) (title : Option String) : Option String :=
  match title with
  | none => none
  | some t =>
    if t = "" then none
    else if ty = "header" then none
    else if ty = "hero" then none
    else some t

/-- The output of one `SectionRenderer` invocation: the section `id`
anchor, the optional `h2` heading, the dispatched body node, and the
recursively rendered children. -/
inductive SectionView : Type where
  | mk : String → Option String → RNode → List SectionView → SectionView

def SectionView.id : SectionView → String
  | .mk i _ _ _ => i

def SectionView.heading : SectionView → Option String
  | .mk _ h _ _ => h

def SectionView.body : SectionView → RNode
  | .mk _ _ b _ => b

def SectionView.childViews : SectionView → List SectionView
  | .mk _ _ _ c => c

mutual

/-- `SectionRenderer` of `SectionRenderer.tsx`: emits the optional `h2`
heading, then the body from `renderSectionByType(section.type)`, then —
when `section.children && section.children.length > 0` — every child in
order through the same component. -/
def SectionRenderer (d : DataBag) : LayoutSection → SectionView
  | .mk i ty title st c l cols sp v ch =>
    SectionView.mk i (sectionHeading ty title)
      (renderSectionByType (.mk i ty title st c l cols sp v ch) d ty)
      (match ch with
       | some cs => if cs.length > 0 then SectionRendererList d cs else []
       | none => [])

/-- `children.map((child) => <SectionRenderer … />)`. -/
def SectionRendererList (d : DataBag) : List LayoutSection → List SectionView
  | [] => []
  | s :: rest => SectionRenderer d s :: SectionRendererList d rest

end

/-- The output of one `LayoutRenderer` invocation: the `loading` takeover,
the `error` takeover, or the page with its section views and — when the
`config.actions && config.actions.length > 0` guard passed — the action
bar's rendered action list. -/
inductive LayoutView : Type where
  | loadingView : LayoutView
  | errorView : String → LayoutView
  | page : List SectionView → Option (List LayoutAction) → LayoutView

/-- The section views of a `LayoutView` (none in a takeover state). -/
def LayoutView.viewSections : LayoutView → List SectionView
  | .page vs _ => vs
  | _ => []

/-- The actions rendered in the action bar (none when the bar is absent). -/
def LayoutView.barActions : LayoutView → List LayoutAction
  | .page _ (some acts) => acts
  | _ => []

/-- The floating action bar: `ActionBar` is mounted only when
`config.actions && config.actions.length > 0`, and then receives
`config.actions.filter((a) => a.position === "floating")`; `ActionBar.tsx`
renders exactly the list it receives. -/
def floatingBar (acts : Option (List LayoutAction)) :
    Option (List LayoutAction) :=
  match acts with
  | none => none
  | some as =>
    if as.length > 0 then
      some (as.filter (fun a => a.position == some "floating"))
    else none

/-- `LayoutRenderer` of `LayoutRenderer.tsx`: `if (loading)` takeover,
else `if (error)` takeover (JS truthiness: an empty string is falsy),
else the page mapping `config.sections` in order plus the floating bar. -/
def LayoutRenderer (cfg : LayoutConfig) (d : DataBag) (loading : Bool)
    (error : Option String) : LayoutView :=
  if loading then .loadingView
  else if jsTruthy error then .errorView (error.getD "")
  else .page (cfg.sections.map (SectionRenderer d)) (floatingBar cfg.actions)

/-- One rendered card of `CardGrid` (from the `CardGrid` source,
`src/unnamed/part_004`): optional image block, title, optional subtitle,
optional badge, optional description, and the action button labels
(rendered only when `item.actions && item.actions.length > 0`). -/
structure CardView where
  image : Option String
  title : String
  subtitle : Option String
  badge : Option String
  description : Option String
  actionLabels : List String
deriving DecidableEq, Repr

/-- The per-item action buttons of `CardGrid`/`ListSection`
(`item.actions && item.actions.length > 0` guard, then one button per
action). -/
def itemActionLabels (it : ContentItem) : List String :=
  match it.actions with
  | none => []
  | some as => if as.length > 0 then as.map (·.label) else []

/-- `CardGrid` body: `items.map((item) => <Card …/>)`. -/
def cardGridRendered (items : List ContentItem) : List CardView :=
  items.map (fun it =>
    ⟨it.image, it.title, it.subtitle, it.badge, it.description,
     itemActionLabels it⟩)

/-- One rendered row of `ListSection` (source appended in
`RecommendationsSection.tsx`): title, optional subtitle, optional
description, optional badge, action button labels. -/
structure ListRowView where
  title : String
  subtitle : Option String
  description : Option String
  badge : Option String
  actionLabels : List String
deriving DecidableEq, Repr

/-- `ListSection` body: `items.map((item) => <div …/>)`. -/
def listSectionRendered (items : List ContentItem) : List ListRowView :=
  items.map (fun it =>
    ⟨it.title, it.subtitle, it.description, it.badge, itemActionLabels it⟩)

/-- Modelled from the spec: the `TimelineSection` source is not in the
repository snapshot; per the spec a timeline renders one entry per
supplied item ("a section of type `cards`/`list`/`timeline` with no
`content` renders zero items"). -/
def timelineRendered (items : List ContentItem) : List ContentItem :=
  items.map (fun it => it)

/-- The number of item entries the selected sub-renderer actually renders
for a dispatched node, per the sub-renderer sources (`CardGrid`,
`ListSection`) and the spec-modelled `TimelineSection`. -/
def RNode.renderedItemCount : RNode → Nat
  | .cardGrid items _ _ => (cardGridRendered items).length
  | .listS items _ => (listSectionRendered items).length
  | .timelineS items => (timelineRendered items).length
  | n => n.itemsOf.length

/-- Modelled from the spec: the intended visibility contract of §4.3 —
`always` renders unconditionally, `authenticated`/`anonymous` render only
when the caller-supplied auth state matches, `custom` defers to a
caller-supplied predicate over `visibility.customRule`. No code under
`src/` evaluates visibility; this definition exists only to compare the
spec's contract with the renderer. A section without a `visibility` field
is unconditionally visible. -/
def visibilityAllows (authenticated : Bool) (customEval : String → Bool) :
    Option VisibilityRule → Bool
  | none => true
  | some r =>
    if r.condition = "always" then true
    else if r.condition = "authenticated" then authenticated
    else if r.condition = "anonymous" then !authenticated
    else if r.condition = "custom" then customEval (r.customRule.getD "")
    else true

/-- Replace only the `visibility` field of a section. -/
def LayoutSection.withVisibility :
    LayoutSection → Option VisibilityRule → LayoutSection
  | .mk i ty t st c l col sp _ ch, v => .mk i ty t st c l col sp v ch

mutual

/-- Section ids of a rendered view in output order: the section's own
anchor first, then its rendered children. -/
def SectionView.flatIds : SectionView → List String
  | .mk i _ _ ch => i :: SectionView.flatIdsList ch

def SectionView.flatIdsList : List SectionView → List String
  | [] => []
  | v :: rest => v.flatIds ++ SectionView.flatIdsList rest

end

mutual

/-- Preorder (document-order) traversal of a section tree's ids: the
parent first, then each child's subtree in array order. -/
def LayoutSection.preorderIds : LayoutSection → List String
  | .mk i _ _ _ _ _ _ _ _ ch =>
    i ::
      (match ch with
       | some cs => LayoutSection.preorderIdsList cs
       | none => [])

def LayoutSection.preorderIdsList : List LayoutSection → List String
  | [] => []
  | s :: rest => s.preorderIds ++ LayoutSection.preorderIdsList rest

end

/-- The nine `SectionType` values with a dedicated `case` in the
`switch` of `renderSectionByType`, in source order. -/
def handledTypeStrings : List String :=
  ["header", "hero", "cards", "list", "timeline", "calendar", "map",
   "alerts", "recommendations"]

/-- A section of type `form` with no other fields set. -/
def formSection : LayoutSection :=
  .mk "f1" "form" none none none none none none none none

/-- A bare sample section. -/
def sampleSection : LayoutSection :=
  .mk "s0" "cards" none none none none none none none none

/-- A `cards` section visible (per the spec's contract) only to anonymous
callers. -/
def anonSection : LayoutSection :=
  .mk "s1" "cards" none none none none none none
    (some ⟨"anonymous", none⟩) none

/-- A config whose single section is `anonSection`. -/
def anonConfig : LayoutConfig :=
  ⟨"itinerary", "T", none, [anonSection], none, none⟩

/-- A config with no sections and no actions. -/
def emptyConfig : LayoutConfig :=
  ⟨"calendar", "C", none, [], none, none⟩

/-- The three actions of the claimed action-bar example. -/
def actA : LayoutAction := ⟨"a", "A", none, "primary", "go", none, some "top"⟩

def actB : LayoutAction :=
  ⟨"b", "B", none, "primary", "go", none, some "floating"⟩

def actC : LayoutAction :=
  ⟨"c", "C", none, "primary", "go", none, some "bottom"⟩

/-- A config carrying the three-action example list. -/
def exampleActionsConfig : LayoutConfig :=
  ⟨"itinerary", "T", none, [], some [actA, actB, actC], none⟩

/-- A `cards` section whose `title` is present but the empty string. -/
def emptyTitleSection : LayoutSection :=
  .mk "s1" "cards" (some "") none none none none none none none

/-- A `cards` section with explicit `columns: 0` and `spacing: ""`. -/
def zeroColumnsSection : LayoutSection :=
  .mk "z1" "cards" none none none none (some 0) (some "") none none

/-- A `cards` section with a non-empty title. -/
def titledCardsSection : LayoutSection :=
  .mk "t1" "cards" (some "Hi") none none none none none none none

/-- A `cards` section with `content` absent entirely. -/
def noContentSection : LayoutSection :=
  .mk "n1" "cards" none none none none none none none none

theorem SectionRendererList_eq_map (d : DataBag) (l : List LayoutSection) :
    SectionRendererList d l = l.map (SectionRenderer d) := by
  induction l with
  | nil => rfl
  | cons s rest ih => simp [SectionRendererList, ih]

mutual

theorem flatIds_SectionRenderer (d : DataBag) (s : LayoutSection) :
    (SectionRenderer d s).flatIds = s.preorderIds := by
  cases s with
  | mk i ty t st c l col sp v ch =>
    cases ch with
    | none =>
      simp [SectionRenderer, SectionView.flatIds, SectionView.flatIdsList,
        LayoutSection.preorderIds]
    | some cs =>
      cases cs with
      | nil =>
        simp [SectionRenderer, SectionView.flatIds, SectionView.flatIdsList,
          LayoutSection.preorderIds, LayoutSection.preorderIdsList]
      | cons a rest =>
        simp [SectionRenderer, SectionView.flatIds,
          LayoutSection.preorderIds,
          flatIdsList_SectionRendererList d (a :: rest)]

theorem flatIdsList_SectionRendererList (d : DataBag)
    (l : List LayoutSection) :
    SectionView.flatIdsList (SectionRendererList d l) =
      LayoutSection.preorderIdsList l := by
  cases l with
  | nil => rfl
  | cons s rest =>
    simp [SectionRendererList, SectionView.flatIdsList,
      LayoutSection.preorderIdsList, flatIds_SectionRenderer d s,
      flatIdsList_SectionRendererList d rest]

end

/-- Claim C1, counterexample: `form` is a member of the closed `SectionType`
enumeration, yet the dispatcher sends it to the `default:` placeholder
branch, so the placeholder is taken for an enumeration value. -/
theorem C1_counterexample :
    "form" ∈ sectionTypeStrings ∧
    renderSectionByType formSection none "form" = RNode.unknownS "form" ∧
    (renderSectionByType formSection none "form").isPlaceholder = true := by
  refine ⟨by decide, rfl, rfl⟩

/-- Claim C1, amended: for the nine enumeration values with a dedicated
`case` (`header`, `hero`, `cards`, `list`, `timeline`, `calendar`, `map`,
`alerts`, `recommendations`) the dispatcher selects exactly the matching
dedicated sub-renderer and never the placeholder; for the other four
enumeration values (`form`, `gallery`, `stats`, `footer`) it falls through
to the placeholder branch. -/
theorem C1_dispatch_partial_totality (s : LayoutSection) (d : DataBag)
    (ty : String) (hty : ty ∈ sectionTypeStrings) :
    (ty ∈ handledTypeStrings →
      (renderSectionByType s d ty).tag = ty ∧
      (renderSectionByType s d ty).isPlaceholder = false) ∧
    (ty ∉ handledTypeStrings →
      renderSectionByType s d ty = RNode.unknownS ty) := by
  fin_cases hty <;>
    refine ⟨fun hin => ?_, fun hout => ?_⟩ <;>
      first
        | exact ⟨rfl, rfl⟩
        | rfl
        | exact absurd hin (by decide)
        | exact absurd (by decide) hout

/-- Claim C1, witness for the amended theorem at `ty = "cards"`. -/
theorem C1_dispatch_partial_totality_witness :
    ("cards" ∈ handledTypeStrings →
      (renderSectionByType sampleSection none "cards").tag = "cards" ∧
      (renderSectionByType sampleSection none "cards").isPlaceholder =
        false) ∧
    ("cards" ∉ handledTypeStrings →
      renderSectionByType sampleSection none "cards" =
        RNode.unknownS "cards") :=
  C1_dispatch_partial_totality sampleSection none "cards" (by decide)

/-- Claim C2, counterexample: under an authenticated caller the spec's
visibility contract rules the anonymous-only section out
(`visibilityAllows true … = false`), yet the renderer — which never reads
`visibility` and takes no auth state at all — still renders it as one
section view instead of skipping it. -/
theorem C2_counterexample :
    visibilityAllows true (fun _ => false) anonSection.visibility = false ∧
    (LayoutRenderer anonConfig none false none).viewSections.length = 1 := by
  exact ⟨rfl, rfl⟩

/-- Claim C2, amended: the renderer never evaluates `visibility` — the
rendered view of a section is unchanged by replacing its `visibility` field
with any other rule, and every section of the config (whatever its
visibility and whatever the caller's auth state, which the renderer does
not even receive) is rendered, none skipped. -/
theorem C2_visibility_never_evaluated (d : DataBag) (s : LayoutSection)
    (v v' : Option VisibilityRule) (cfg : LayoutConfig) :
    SectionRenderer d (s.withVisibility v) =
      SectionRenderer d (s.withVisibility v') ∧
    (LayoutRenderer cfg d false none).viewSections.length =
      cfg.sections.length := by
  constructor
  · cases s with
    | mk i ty t st c l col sp v0 ch => rfl
  · simp [LayoutRenderer, jsTruthy, LayoutView.viewSections]

/-- Claim C3: `loading` is a full takeover — no section renders even when
`error` is also set — and with `loading` clear and a non-empty `error`
string the output is exactly the error view showing that string, with no
sections. -/
theorem C3_takeover_states (cfg : LayoutConfig) (d : DataBag)
    (e : Option String) (x : String) (hx : x ≠ "") :
    LayoutRenderer cfg d true e = LayoutView.loadingView ∧
    (LayoutRenderer cfg d true e).viewSections = [] ∧
    LayoutRenderer cfg d false (some x) = LayoutView.errorView x ∧
    (LayoutRenderer cfg d false (some x)).viewSections = [] := by
  refine ⟨rfl, rfl, ?_, ?_⟩ <;>
    simp [LayoutRenderer, jsTruthy, hx, LayoutView.viewSections]

/-- Claim C3, witness at the empty config with `error = "boom"` set during
loading. -/
theorem C3_takeover_states_witness :
    LayoutRenderer emptyConfig none true (some "boom") =
      LayoutView.loadingView ∧
    (LayoutRenderer emptyConfig none true (some "boom")).viewSections =
      [] ∧
    LayoutRenderer emptyConfig none false (some "boom") =
      LayoutView.errorView "boom" ∧
    (LayoutRenderer emptyConfig none false (some "boom")).viewSections =
      [] :=
  C3_takeover_states emptyConfig none (some "boom") "boom" (by decide)

/-- Claim C4: the action bar renders exactly the `position === "floating"`
subset of `config.actions`, and on the example list `[a:top, b:floating,
c:bottom]` only `b` appears. -/
theorem C4_floating_only (cfg : LayoutConfig) (d : DataBag) :
    (LayoutRenderer cfg d false none).barActions =
      (cfg.actions.getD []).filter
        (fun a => a.position == some "floating") ∧
    (LayoutRenderer exampleActionsConfig none false none).barActions =
      [actB] := by
  constructor
  · rcases h : cfg.actions with _ | as
    · simp [LayoutRenderer, jsTruthy, LayoutView.barActions, floatingBar, h]
    · cases as with
      | nil =>
        simp [LayoutRenderer, jsTruthy, LayoutView.barActions, floatingBar,
          h]
      | cons a rest =>
        simp [LayoutRenderer, jsTruthy, LayoutView.barActions, floatingBar,
          h]
  · rfl

/-- Claim C5: any type string outside the closed enumeration reaches the
`default:` placeholder branch, whose text carries the literal unrecognized
string; the dispatcher is total (never throws) by construction. -/
theorem C5_unknown_type_fallback (s : LayoutSection) (d : DataBag)
    (ty : String) (hty : ty ∉ sectionTypeStrings) :
    renderSectionByType s d ty = RNode.unknownS ty ∧
    (renderSectionByType s d ty).isPlaceholder = true ∧
    (renderSectionByType s d ty).placeholderText =
      some ("Unknown section type: " ++ ty) ∧
    ∃ pre suf, (renderSectionByType s d ty).placeholderText =
      some (pre ++ ty ++ suf) := by
  simp only [sectionTypeStrings, List.mem_cons, List.not_mem_nil, or_false,
    not_or] at hty
  obtain ⟨h1, h2, h3, h4, h5, h6, h7, h8, h9, h10, h11, h12, h13⟩ := hty
  have hr : renderSectionByType s d ty = RNode.unknownS ty := by
    simp [renderSectionByType, h1, h2, h3, h4, h5, h6, h7, h11, h12]
  refine ⟨hr, by rw [hr]; rfl, by rw [hr]; rfl,
    "Unknown section type: ", "", by rw [hr]; simp [RNode.placeholderText]⟩

/-- Claim C5, witness at the unrecognized string `"bogus"`. -/
theorem C5_unknown_type_fallback_witness :
    renderSectionByType sampleSection none "bogus" =
      RNode.unknownS "bogus" ∧
    (renderSectionByType sampleSection none "bogus").isPlaceholder =
      true ∧
    (renderSectionByType sampleSection none "bogus").placeholderText =
      some ("Unknown section type: " ++ "bogus") ∧
    ∃ pre suf,
      (renderSectionByType sampleSection none "bogus").placeholderText =
        some (pre ++ "bogus" ++ suf) :=
  C5_unknown_type_fallback sampleSection none "bogus" (by decide)

/-- Claim C6: order preservation at every level — the page renders
`config.sections` in array order; the ids of the whole rendered output are
exactly the preorder (parent first, then children in order) traversal of
the config's section trees; and a section's rendered children are its
`children` array mapped in order through the same recursive renderer. -/
theorem C6_order_preservation (cfg : LayoutConfig) (d : DataBag)
    (s : LayoutSection) :
    (LayoutRenderer cfg d false none).viewSections =
      cfg.sections.map (SectionRenderer d) ∧
    SectionView.flatIdsList
        ((LayoutRenderer cfg d false none).viewSections) =
      LayoutSection.preorderIdsList cfg.sections ∧
    (SectionRenderer d s).flatIds = s.preorderIds ∧
    (SectionRenderer d s).childViews =
      (s.children.getD []).map (SectionRenderer d) := by
  refine ⟨rfl, ?_, flatIds_SectionRenderer d s, ?_⟩
  · have h : (LayoutRenderer cfg d false none).viewSections =
        SectionRendererList d cfg.sections := by
      simp [LayoutRenderer, jsTruthy, LayoutView.viewSections,
        SectionRendererList_eq_map]
    rw [h, flatIdsList_SectionRendererList]
  · cases s with
    | mk i ty t st c l col sp v ch =>
      cases ch with
      | none => rfl
      | some cs =>
        cases cs with
        | nil => rfl
        | cons a rest =>
          simp [SectionRenderer, SectionView.childViews,
            LayoutSection.children, SectionRendererList_eq_map]

/-- Claim C7: for a section of type `cards`, `list`, or `timeline` whose
`content` (or `content.items`) is absent, the dispatcher passes the
sub-renderer the empty item sequence and the sub-renderer's per-item loop
renders zero items; everything is a total function, so nothing can be
raised. -/
theorem C7_empty_items_safety (s : LayoutSection) (d : DataBag)
    (hty : s.type = "cards" ∨ s.type = "list" ∨ s.type = "timeline")
    (hc : s.content = none ∨
      ∃ c, s.content = some c ∧ c.items = none) :
    (renderSectionByType s d s.type).itemsOf = [] ∧
    (renderSectionByType s d s.type).renderedItemCount = 0 := by
  have hitems : contentItems s = [] := by
    rcases hc with h | hex
    · simp [contentItems, h]
    · obtain ⟨c, hc1, hi⟩ := hex
      simp [contentItems, hc1, hi]
  rcases hty with h | h | h <;> rw [h] <;>
    simp [renderSectionByType, hitems, RNode.itemsOf,
      RNode.renderedItemCount, cardGridRendered, listSectionRendered,
      timelineRendered]

/-- Claim C7, witness at a `cards` section with `content` absent. -/
theorem C7_empty_items_safety_witness :
    (renderSectionByType noContentSection none
        noContentSection.type).itemsOf = [] ∧
    (renderSectionByType noContentSection none
        noContentSection.type).renderedItemCount = 0 :=
  C7_empty_items_safety noContentSection none (Or.inl rfl) (Or.inl rfl)

/-- Claim C8, counterexample: a `cards` section whose `title` field is
present but equal to the empty string has a title, yet the renderer emits
no heading for it (the JS guard `section.title && …` treats `""` as
falsy) and its body displays no title either — the title is rendered zero
times, not once. -/
theorem C8_counterexample :
    emptyTitleSection.title = some "" ∧
    emptyTitleSection.type = "cards" ∧
    (SectionRenderer none emptyTitleSection).heading = none ∧
    (SectionRenderer none emptyTitleSection).body.displayedTitle =
      none := by
  exact ⟨rfl, rfl, rfl, rfl⟩

/-- Claim C8, amended: for every section with a present, non-empty title,
the title is rendered exactly once — as the wrapper's heading, above the
dispatched body, for every type other than `header`/`hero` (whose bodies
display no title of their own), while for `header`/`hero` the wrapper
emits no heading and the sub-renderer displays the title itself. -/
theorem C8_title_rendered_once (d : DataBag) (s : LayoutSection)
    (t : String) (ht : s.title = some t) (hne : t ≠ "") :
    (s.type ≠ "header" → s.type ≠ "hero" →
      (SectionRenderer d s).heading = some t ∧
      (SectionRenderer d s).body.displayedTitle = none) ∧
    (s.type = "header" ∨ s.type = "hero" →
      (SectionRenderer d s).heading = none ∧
      (SectionRenderer d s).body.displayedTitle = some t) := by
  cases s with
  | mk i ty t0 st c l col sp v ch =>
    simp only [LayoutSection.title] at ht
    subst ht
    constructor
    · intro hh hh2
      simp only [LayoutSection.type] at hh hh2
      constructor
      · simp [SectionRenderer, SectionView.heading, sectionHeading, hne,
          hh, hh2]
      · simp only [SectionRenderer, SectionView.body, renderSectionByType]
        rw [if_neg hh, if_neg hh2]
        repeat' split
        all_goals rfl
    · intro hh
      simp only [LayoutSection.type] at hh
      rcases hh with h | h <;> subst h <;>
        constructor <;>
          simp [SectionRenderer, SectionView.heading, SectionView.body,
            sectionHeading, renderSectionByType, RNode.displayedTitle,
            LayoutSection.title]

/-- Claim C8, witness for the amended theorem at a titled `cards`
section. -/
theorem C8_title_rendered_once_witness :
    (titledCardsSection.type ≠ "header" → titledCardsSection.type ≠ "hero" →
      (SectionRenderer none titledCardsSection).heading = some "Hi" ∧
      (SectionRenderer none titledCardsSection).body.displayedTitle =
        none) ∧
    (titledCardsSection.type = "header" ∨
        titledCardsSection.type = "hero" →
      (SectionRenderer none titledCardsSection).heading = none ∧
      (SectionRenderer none titledCardsSection).body.displayedTitle =
        some "Hi") :=
  C8_title_rendered_once none titledCardsSection "Hi" rfl (by decide)

/-- Claim C9: rendering is a pure function of the config, data bag, and
loading/error flags — equal inputs give equal output; the embedded
components close over no other state, matching the hook-free, effect-free
source components. -/
theorem C9_pure_deterministic (c₁ c₂ : LayoutConfig) (d₁ d₂ : DataBag)
    (l₁ l₂ : Bool) (e₁ e₂ : Option String) (hc : c₁ = c₂) (hd : d₁ = d₂)
    (hl : l₁ = l₂) (he : e₁ = e₂) :
    LayoutRenderer c₁ d₁ l₁ e₁ = LayoutRenderer c₂ d₂ l₂ e₂ := by
  subst hc
  subst hd
  subst hl
  subst he
  rfl

/-- Claim C9, witness: two invocations on the same concrete inputs agree. -/
theorem C9_pure_deterministic_witness :
    LayoutRenderer anonConfig (some [("k", "v")]) false none =
      LayoutRenderer anonConfig (some [("k", "v")]) false none :=
  C9_pure_deterministic anonConfig anonConfig (some [("k", "v")])
    (some [("k", "v")]) false false none none rfl rfl rfl rfl

/-- Claim C10: the dispatcher substitutes the defaults through JS
truthiness — a `cards` section gets `columns = 3` whenever `columns` is
absent or the falsy `0`, and `spacing = "normal"` whenever `spacing` is
absent or the falsy `""`. -/
theorem C10_falsy_defaults (s : LayoutSection) (d : DataBag) :
    renderSectionByType s d "cards" =
      RNode.cardGrid (contentItems s) (jsOrInt s.columns 3)
        (jsOrStr s.spacing "normal") ∧
    (s.columns = some 0 ∨ s.columns = none →
      (renderSectionByType s d "cards").columnsOf = some 3) ∧
    (s.spacing = some "" ∨ s.spacing = none →
      (renderSectionByType s d "cards").spacingOf = some "normal") := by
  refine ⟨rfl, ?_, ?_⟩
  · intro h
    rcases h with h | h <;>
      simp [renderSectionByType, RNode.columnsOf, jsOrInt, h]
  · intro h
    rcases h with h | h <;>
      simp [renderSectionByType, RNode.spacingOf, jsOrStr, h]

/-- Claim C10, witness at a `cards` section with explicit `columns: 0` and
`spacing: ""`. -/
theorem C10_falsy_defaults_witness :
    renderSectionByType zeroColumnsSection none "cards" =
      RNode.cardGrid (contentItems zeroColumnsSection)
        (jsOrInt zeroColumnsSection.columns 3)
        (jsOrStr zeroColumnsSection.spacing "normal") ∧
    ((renderSectionByType zeroColumnsSection none "cards").columnsOf =
      some 3) ∧
    ((renderSectionByType zeroColumnsSection none "cards").spacingOf =
      some "normal") := by
  have h := C10_falsy_defaults zeroColumnsSection none
  exact ⟨h.1, h.2.1 (Or.inl rfl), h.2.2 (Or.inl rfl)⟩
